import Mathlib

/-
  Verification development for the GPGPU-Image-Drawing repository
  (a wgpu compute-to-texture demo).

  The embedding models the data and control flow of the source files:
    - src/main.rs     : the inline WGSL compute kernel (shader_src) and the
                        monolithic event loop;
    - src/gpu.rs      : GpuState with surface configuration, resize and
                        reconfigure_surface;
    - src/compute.rs  : ComputeState with the off-screen storage texture and
                        dispatch (workgroup grid width/8 x height/8 x 1);
    - src/render.rs   : RenderState with the full-screen quad vertex buffer,
                        the bind group sampling the compute output view, and
                        the render pass record (clear to black, draw 0..4 as
                        a triangle strip);
    - src/app.rs      : App with render_frame (dispatch + submit, frame
                        acquisition with one reconfigure-and-retry, render +
                        submit, present), handle_resize, and the event loop.

  Colors are modelled as exact rationals: the kernel computes
  (x/512, y/512, 0.5, 1.0) from the invocation's global coordinate, and the
  GPU texture is a pixel function together with its dimensions.  GPU handles
  (texture views) are modelled by identity tokens so that binding equalities
  are expressible.  Command submission is modelled by an event trace.
-/

namespace GpgpuImageDrawing

/-- An RGBA color with exact rational channels (normalized RGBA). -/
structure Color where
  r : ℚ
  g : ℚ
  b : ℚ
  a : ℚ
deriving DecidableEq

/-- wgpu Color.BLACK: (0, 0, 0, 1), used as the render pass clear color. -/
def blackColor : Color := ⟨0, 0, 0, 1⟩

/-- The body of the compute kernel in main.rs (shader_src): each invocation
with global id (x, y) computes vec4(f32(x)/512.0, f32(y)/512.0, 0.5, 1.0). -/
def kernelColor (x y : ℕ) : Color :=
  ⟨(x : ℚ) / 512, (y : ℚ) / 512, 1 / 2, 1⟩

/-- A 2D texture: dimensions plus a pixel function. -/
structure Image where
  width : ℕ
  height : ℕ
  pixel : ℕ → ℕ → Color

/-- The workgroup size annotation of the compute kernel: 8 x 8 (x 1). -/
def workgroupSize : ℕ × ℕ × ℕ := (8, 8, 1)

/-- The workgroup grid recorded by ComputeState.dispatch (compute.rs line 79):
dispatch_workgroups(width / 8, height / 8, 1), with truncating u32 division. -/
def dispatch_workgroups (width height : ℕ) : ℕ × ℕ × ℕ :=
  (width / 8, height / 8, 1)

/-- A recorded compute pass: the pipeline, bind group and workgroup grid. -/
structure ComputePassRecord where
  grid : ℕ × ℕ × ℕ
deriving DecidableEq

/-- Executing a recorded compute pass on the bound storage texture: each
invocation (x, y, z) with x < 8 * grid.x, y < 8 * grid.y, z < grid.z stores
kernelColor x y at texel (x, y); out-of-bounds texture stores are dropped. -/
def runComputePass (cp : ComputePassRecord) (img : Image) : Image :=
  { img with
    pixel := fun x y =>
      if x < 8 * cp.grid.1 ∧ y < 8 * cp.grid.2.1 ∧ 0 < cp.grid.2.2 ∧
          x < img.width ∧ y < img.height then
        kernelColor x y
      else
        img.pixel x y }

/-- The effect of ComputeState.dispatch(encoder, width, height) once the
encoded commands are submitted: run the pass with grid (width/8, height/8, 1)
on the off-screen image. -/
def dispatchCompute (img : Image) (width height : ℕ) : Image :=
  runComputePass ⟨dispatch_workgroups width height⟩ img

/-- Texture formats appearing in the source (gpu.rs, compute.rs). -/
inductive TextureFormat
  | Rgba8Unorm
  | other (n : ℕ)
deriving DecidableEq

/-- Presentation modes appearing in the source (gpu.rs line 37). -/
inductive PresentMode
  | Fifo
  | other (n : ℕ)
deriving DecidableEq

/-- Composite alpha modes appearing in the source (gpu.rs line 38). -/
inductive CompositeAlphaMode
  | Opaque
  | other (n : ℕ)
deriving DecidableEq

/-- wgpu TextureUsages.RENDER_ATTACHMENT bit flag (1 << 4). -/
def RENDER_ATTACHMENT : ℕ := 16

/-- wgpu::SurfaceConfiguration as built in gpu.rs lines 32-41. -/
structure SurfaceConfiguration where
  usage : ℕ
  format : TextureFormat
  width : ℕ
  height : ℕ
  present_mode : PresentMode
  alpha_mode : CompositeAlphaMode
  view_formats : List TextureFormat
  desired_maximum_frame_latency : ℕ
deriving DecidableEq

/-- GpuState (gpu.rs): the stored surface configuration, the negotiated
format, and the configuration last applied to the surface by
surface.configure (so that reconfiguration is observable). -/
structure GpuState where
  surface_format : TextureFormat
  surface_config : SurfaceConfiguration
  surface_applied : SurfaceConfiguration
deriving DecidableEq

/-- GpuState.new (gpu.rs lines 14-52): configure the surface with the
negotiated format, the requested size, FIFO presentation, opaque alpha,
no extra view formats, and a maximum frame latency of 2. -/
def GpuState.new (fmt : TextureFormat) (width height : ℕ) : GpuState :=
  let cfg : SurfaceConfiguration :=
    { usage := RENDER_ATTACHMENT
      format := fmt
      width := width
      height := height
      present_mode := PresentMode.Fifo
      alpha_mode := CompositeAlphaMode.Opaque
      view_formats := []
      desired_maximum_frame_latency := 2 }
  { surface_format := fmt, surface_config := cfg, surface_applied := cfg }

/-- GpuState.resize (gpu.rs lines 54-58): overwrite the stored width and
height, then re-apply the configuration to the surface. -/
def GpuState.resize (st : GpuState) (width height : ℕ) : GpuState :=
  let cfg := { st.surface_config with width := width, height := height }
  { st with surface_config := cfg, surface_applied := cfg }

/-- GpuState.reconfigure_surface (gpu.rs lines 60-62): re-apply the stored
configuration to the surface, changing no stored field. -/
def GpuState.reconfigure_surface (st : GpuState) : GpuState :=
  { st with surface_applied := st.surface_config }

/-- ComputeState (compute.rs): the off-screen image and the identity of the
texture view bound as the write target (binding 0 of the bind group). -/
structure ComputeState where
  output_view : ℕ
  image : Image

/-- ComputeState.new (compute.rs lines 12-69): create the off-screen
Rgba8Unorm texture at the given size (contents initially unspecified,
supplied here by init) and bind its view as write-only storage. -/
def ComputeState.new (viewId : ℕ) (width height : ℕ)
    (init : ℕ → ℕ → Color) : ComputeState :=
  { output_view := viewId
    image := { width := width, height := height, pixel := init } }

/-- ComputeState.dispatch (compute.rs lines 71-80): record a compute pass
that binds the pipeline and bind group and issues the grid
(width / 8, height / 8, 1). -/
def ComputeState.dispatch (_cs : ComputeState) (width height : ℕ) :
    ComputePassRecord :=
  ⟨dispatch_workgroups width height⟩

/-- Primitive topologies appearing in the source (render.rs line 110). -/
inductive PrimitiveTopology
  | TriangleList
  | TriangleStrip
deriving DecidableEq

/-- The flat vertex buffer contents from render.rs lines 24-27 (and
main.rs lines 169-172): interleaved (pos.x, pos.y, uv.x, uv.y) per vertex. -/
def vertexData : List ℚ :=
  [-1, -1, 0, 1, 1, -1, 1, 1, -1, 1, 0, 0, 1, 1, 1, 0]

/-- A vertex as consumed by the vertex shader: position and texcoord. -/
structure Vertex where
  pos : ℚ × ℚ
  uv : ℚ × ℚ
deriving DecidableEq

/-- Vertex i of the buffer under the declared vertex layout (render.rs
lines 82-97): array stride 4 floats, position at offset 0, uv at offset 2. -/
def vertexAt (i : ℕ) : Vertex :=
  { pos := (vertexData.getD (4 * i) 0, vertexData.getD (4 * i + 1) 0)
    uv := (vertexData.getD (4 * i + 2) 0, vertexData.getD (4 * i + 3) 0) }

/-- RenderState (render.rs): the identity of the texture view sampled at
binding 0 (the compute output view), the pipeline topology, and the vertex
buffer contents. -/
structure RenderState where
  sampled_view : ℕ
  topology : PrimitiveTopology
  vertex_buffer : List ℚ
deriving DecidableEq

/-- RenderState.new (render.rs lines 14-123): bind compute_state.output_view
at binding 0 (with a sampler at binding 1), upload the quad vertex buffer,
and build a triangle-strip pipeline targeting the surface format. -/
def RenderState.new (cs : ComputeState) (_surface_format : TextureFormat) :
    RenderState :=
  { sampled_view := cs.output_view
    topology := PrimitiveTopology.TriangleStrip
    vertex_buffer := vertexData }

/-- A recorded render pass (render.rs lines 125-144): clear color, bound
pipeline topology, sampled view, vertex data, and the draw ranges. -/
structure RenderPassRecord where
  clear_color : Color
  topology : PrimitiveTopology
  sampled_view : ℕ
  vertex_data : List ℚ
  draw_vertices : ℕ × ℕ
  draw_instances : ℕ × ℕ
deriving DecidableEq

/-- RenderState.render (render.rs lines 125-144): record a render pass that
clears the target to opaque black, binds the pipeline, bind group and vertex
buffer, and draws vertices 0..4 of instance 0..1. -/
def RenderState.render (rs : RenderState) : RenderPassRecord :=
  { clear_color := blackColor
    topology := rs.topology
    sampled_view := rs.sampled_view
    vertex_data := rs.vertex_buffer
    draw_vertices := (0, 4)
    draw_instances := (0, 1) }

/-- WIDTH constant (app.rs line 6 and main.rs line 6). -/
def WIDTH : ℕ := 512

/-- HEIGHT constant (app.rs line 7 and main.rs line 7). -/
def HEIGHT : ℕ := 512

/-- App (app.rs lines 33-37). -/
structure App where
  gpu_state : GpuState
  compute_state : ComputeState
  render_state : RenderState

/-- run_app construction (app.rs lines 11-30): GpuState, ComputeState at the
initial window size, RenderState sampling the compute output. -/
def run_app (fmt : TextureFormat) (viewId : ℕ)
    (init : ℕ → ℕ → Color) : App :=
  let gpu_state := GpuState.new fmt WIDTH HEIGHT
  let compute_state := ComputeState.new viewId WIDTH HEIGHT init
  let render_state := RenderState.new compute_state fmt
  { gpu_state := gpu_state
    compute_state := compute_state
    render_state := render_state }

/-- Outcome of one surface.get_current_texture() call, supplied by the
environment (the swap chain). -/
inductive AcquireOutcome
  | ok
  | err
deriving DecidableEq

/-- Observable per-frame events, in submission order. -/
inductive FrameEvent
  | submitCompute (grid : ℕ × ℕ × ℕ)
  | acquireAttempt
  | reconfigure
  | submitRender (rp : RenderPassRecord)
  | present
deriving DecidableEq

/-- Whether an event is a compute submission. -/
def FrameEvent.isSubmitCompute : FrameEvent → Bool
  | FrameEvent.submitCompute _ => true
  | _ => false

/-- Whether an event is a render submission. -/
def FrameEvent.isSubmitRender : FrameEvent → Bool
  | FrameEvent.submitRender _ => true
  | _ => false

/-- App.render_frame (app.rs lines 58-97): dispatch the compute pass over
(WIDTH, HEIGHT) and submit it; acquire the frame, and on failure reconfigure
the surface and retry exactly once (a second failure panics via expect,
returning none); then record and submit the render pass and present.
The outcomes of the at most two acquisition attempts are supplied as
first and second.  Returns the next state (none on the fatal path) and the
trace of events. -/
def App.render_frame (app : App) (first second : AcquireOutcome) :
    Option App × List FrameEvent :=
  let cp := app.compute_state.dispatch WIDTH HEIGHT
  let cs2 := { app.compute_state with
               image := runComputePass cp app.compute_state.image }
  match first with
  | AcquireOutcome.ok =>
      let rp := app.render_state.render
      (some { app with compute_state := cs2 },
       [FrameEvent.submitCompute cp.grid, FrameEvent.acquireAttempt,
        FrameEvent.submitRender rp, FrameEvent.present])
  | AcquireOutcome.err =>
      let gpu2 := app.gpu_state.reconfigure_surface
      match second with
      | AcquireOutcome.ok =>
          let rp := app.render_state.render
          (some { app with gpu_state := gpu2, compute_state := cs2 },
           [FrameEvent.submitCompute cp.grid, FrameEvent.acquireAttempt,
            FrameEvent.reconfigure, FrameEvent.acquireAttempt,
            FrameEvent.submitRender rp, FrameEvent.present])
      | AcquireOutcome.err =>
          (none,
           [FrameEvent.submitCompute cp.grid, FrameEvent.acquireAttempt,
            FrameEvent.reconfigure, FrameEvent.acquireAttempt])

/-- App.handle_resize (app.rs lines 99-102): resize the surface, then
request a redraw (the returned Bool records the redraw request). -/
def App.handle_resize (app : App) (width height : ℕ) : App × Bool :=
  ({ app with gpu_state := app.gpu_state.resize width height }, true)

/-- Window events delivered to the event loop (app.rs lines 42-53); a
redraw carries the environment's acquisition outcomes for the frame. -/
inductive WinEvent
  | aboutToWait (first second : AcquireOutcome)
  | closeRequested
  | resized (width height : ℕ)
deriving DecidableEq

/-- Result of handling one event in the loop. -/
inductive StepResult
  | exit (code : ℕ)
  | next (app : App) (events : List FrameEvent)
  | fatal (events : List FrameEvent)

/-- One iteration of the event loop match (app.rs lines 42-53):
AboutToWait runs render_frame; CloseRequested exits the process with
code 0; Resized calls handle_resize (which requests a redraw). -/
def App.step (app : App) : WinEvent → StepResult
  | WinEvent.aboutToWait first second =>
      match app.render_frame first second with
      | (some app2, events) => StepResult.next app2 events
      | (none, events) => StepResult.fatal events
  | WinEvent.closeRequested => StepResult.exit 0
  | WinEvent.resized width height =>
      StepResult.next (app.handle_resize width height).1 []

/-- Running the event loop on a list of events: accumulates the frame-event
trace and stops at process exit (returning its code) or at a fatal panic
(returning no code). -/
def App.run : App → List WinEvent → List FrameEvent × Option ℕ
  | _, [] => ([], none)
  | app, ev :: rest =>
      match app.step ev with
      | StepResult.exit code => ([], some code)
      | StepResult.next app2 events =>
          let r := App.run app2 rest
          (events ++ r.1, r.2)
      | StepResult.fatal events => (events, none)

/-- A concrete 512 x 512 all-black image, used to instantiate theorems. -/
def blackImage512 : Image :=
  { width := 512, height := 512, pixel := fun _ _ => blackColor }

/-- A concrete App as built by run_app, used to instantiate theorems. -/
def testApp : App :=
  run_app (TextureFormat.other 0) 7 (fun _ _ => blackColor)

/-- Helper: on a 512 x 512 image, a dispatch over (512, 512) sets every
in-bounds pixel to the kernel gradient color. -/
theorem dispatchCompute_pixel_eq (im : Image) (hiw : im.width = 512)
    (hih : im.height = 512) (a b : ℕ) (ha : a < 512) (hb : b < 512) :
    (dispatchCompute im 512 512).pixel a b = kernelColor a b := by
  simp [dispatchCompute, runComputePass, dispatch_workgroups, hiw, hih, ha, hb]

/-- C1: after a compute dispatch over a 512 x 512 off-screen image, every
in-bounds pixel (x, y) equals (x/512, y/512, 0.5, 1.0) in normalized RGBA;
pixel (0, 0) is (0, 0, 0.5, 1.0); pixel (511, 511) has red and green equal
to 511/512, which is 0.998 to three decimals, blue 0.5 and alpha 1; and the
result is independent of the previous image contents (every pixel is
overwritten, no accumulation across frames). -/
theorem dispatch_fills_gradient_512 (img img2 : Image) (x y : ℕ)
    (hw : img.width = 512) (hh : img.height = 512)
    (hw2 : img2.width = 512) (hh2 : img2.height = 512)
    (hx : x < 512) (hy : y < 512) :
    (dispatchCompute img 512 512).pixel x y =
      ⟨(x : ℚ) / 512, (y : ℚ) / 512, 1 / 2, 1⟩
    ∧ (dispatchCompute img 512 512).pixel 0 0 = ⟨0, 0, 1 / 2, 1⟩
    ∧ ((dispatchCompute img 512 512).pixel 511 511).r = 511 / 512
    ∧ round ((1000 : ℚ) * ((dispatchCompute img 512 512).pixel 511 511).r) = 998
    ∧ round ((1000 : ℚ) * ((dispatchCompute img 512 512).pixel 511 511).g) = 998
    ∧ ((dispatchCompute img 512 512).pixel 511 511).b = 1 / 2
    ∧ ((dispatchCompute img 512 512).pixel 511 511).a = 1
    ∧ (dispatchCompute img 512 512).pixel x y =
        (dispatchCompute img2 512 512).pixel x y := by
  have h511 : (dispatchCompute img 512 512).pixel 511 511 = kernelColor 511 511 :=
    dispatchCompute_pixel_eq img hw hh 511 511 (by norm_num) (by norm_num)
  have hr : (kernelColor 511 511).r = 511 / 512 := by norm_num [kernelColor]
  have hg : (kernelColor 511 511).g = 511 / 512 := by norm_num [kernelColor]
  have hround : round ((1000 : ℚ) * ((511 : ℚ) / 512)) = 998 := by
    rw [round_eq, Int.floor_eq_iff]
    norm_num
  refine ⟨dispatchCompute_pixel_eq img hw hh x y hx hy, ?_, ?_, ?_, ?_, ?_, ?_, ?_⟩
  · rw [dispatchCompute_pixel_eq img hw hh 0 0 (by norm_num) (by norm_num)]
    norm_num [kernelColor]
  · rw [h511, hr]
  · rw [h511, hr]; exact hround
  · rw [h511, hg]; exact hround
  · rw [h511]; norm_num [kernelColor]
  · rw [h511]; norm_num [kernelColor]
  · rw [dispatchCompute_pixel_eq img hw hh x y hx hy,
        dispatchCompute_pixel_eq img2 hw2 hh2 x y hx hy]

/-- Witness for dispatch_fills_gradient_512 at the all-black 512 x 512 image
and pixel (511, 511). -/
theorem dispatch_fills_gradient_512_witness :
    (dispatchCompute blackImage512 512 512).pixel 511 511 =
      ⟨((511 : ℕ) : ℚ) / 512, ((511 : ℕ) : ℚ) / 512, 1 / 2, 1⟩
    ∧ (dispatchCompute blackImage512 512 512).pixel 0 0 = ⟨0, 0, 1 / 2, 1⟩
    ∧ ((dispatchCompute blackImage512 512 512).pixel 511 511).r = 511 / 512
    ∧ round ((1000 : ℚ) *
        ((dispatchCompute blackImage512 512 512).pixel 511 511).r) = 998
    ∧ round ((1000 : ℚ) *
        ((dispatchCompute blackImage512 512 512).pixel 511 511).g) = 998
    ∧ ((dispatchCompute blackImage512 512 512).pixel 511 511).b = 1 / 2
    ∧ ((dispatchCompute blackImage512 512 512).pixel 511 511).a = 1
    ∧ (dispatchCompute blackImage512 512 512).pixel 511 511 =
        (dispatchCompute blackImage512 512 512).pixel 511 511 :=
  dispatch_fills_gradient_512 blackImage512 blackImage512 511 511
    rfl rfl rfl rfl (by norm_num) (by norm_num)

/-- C2 counterexample: the recorded grid uses truncating division, not
ceiling division; at width = height = 9 the code records (1, 1, 1) while
ceil(9/8) = 2. -/
theorem dispatch_grid_not_ceil :
    dispatch_workgroups 9 9 = (1, 1, 1) ∧ (9 + 7) / 8 = 2 ∧
    dispatch_workgroups 9 9 ≠ ((9 + 7) / 8, (9 + 7) / 8, 1) := by
  decide

/-- C2 amended: for every call dispatch(encoder, width, height), the
recorded compute pass issues a grid of workgroups sized
floor(width/8) x floor(height/8) x 1 (truncating integer division), with the
workgroup size fixed at 8 x 8 x 1 threads. -/
theorem dispatch_grid_floor_div (cs : ComputeState) (width height : ℕ) :
    cs.dispatch width height = ⟨(width / 8, height / 8, 1)⟩
    ∧ workgroupSize = (8, 8, 1) :=
  ⟨rfl, rfl⟩

/-- C4: after handle_resize(w2, h2) the surface configuration's stored
width and height equal (w2, h2), every other configuration field is
unchanged, the off-screen image keeps its construction-time dimensions
(the compute state is untouched), and a redraw is requested. -/
theorem resize_updates_surface_dims_only (app : App) (w2 h2 : ℕ) :
    (app.handle_resize w2 h2).1.gpu_state.surface_config.width = w2
    ∧ (app.handle_resize w2 h2).1.gpu_state.surface_config.height = h2
    ∧ (app.handle_resize w2 h2).1.gpu_state.surface_config.format =
        app.gpu_state.surface_config.format
    ∧ (app.handle_resize w2 h2).1.gpu_state.surface_config.present_mode =
        app.gpu_state.surface_config.present_mode
    ∧ (app.handle_resize w2 h2).1.gpu_state.surface_config.usage =
        app.gpu_state.surface_config.usage
    ∧ (app.handle_resize w2 h2).1.gpu_state.surface_config.alpha_mode =
        app.gpu_state.surface_config.alpha_mode
    ∧ (app.handle_resize w2 h2).1.gpu_state.surface_config.view_formats =
        app.gpu_state.surface_config.view_formats
    ∧ (app.handle_resize w2 h2).1.gpu_state.surface_config.desired_maximum_frame_latency =
        app.gpu_state.surface_config.desired_maximum_frame_latency
    ∧ (app.handle_resize w2 h2).1.compute_state.image.width =
        app.compute_state.image.width
    ∧ (app.handle_resize w2 h2).1.compute_state.image.height =
        app.compute_state.image.height
    ∧ (app.handle_resize w2 h2).2 = true :=
  ⟨rfl, rfl, rfl, rfl, rfl, rfl, rfl, rfl, rfl, rfl, rfl⟩

/-- C6: dispatching the compute kernel twice in a row with unchanged
dimensions leaves the image exactly as after the first dispatch
(idempotence: no per-frame randomness or accumulation). -/
theorem dispatch_idempotent (img : Image) (width height : ℕ) :
    dispatchCompute (dispatchCompute img width height) width height =
      dispatchCompute img width height := by
  cases img with
  | mk w h p =>
    simp only [dispatchCompute, runComputePass, dispatch_workgroups]
    congr 1
    funext x y
    by_cases h1 : x < 8 * (width / 8) <;>
      by_cases h2 : y < 8 * (height / 8) <;>
      by_cases h3 : x < w <;>
      by_cases h4 : y < h <;>
      simp [h1, h2, h3, h4]

/-- C7: the vertex buffer holds exactly 4 vertices of (position, texcoord)
with stride 4 floats; the positions are the four corners of the full
normalized device area from (-1,-1) to (1,1); the texture coordinates cover
(0,0)-(1,1) vertically flipped (uv.y = 1 at device y = -1, and in general
uv = ((pos.x+1)/2, 1-(pos.y+1)/2)); and render() clears the target to
opaque black and draws exactly vertices 0..4 of one instance with the
triangle-strip pipeline. -/
theorem fullscreen_quad_and_render_pass (cs : ComputeState)
    (fmt : TextureFormat) (rs : RenderState) :
    vertexData.length = 4 * 4
    ∧ (∀ i : Fin 4, (vertexAt i.val).uv.1 = ((vertexAt i.val).pos.1 + 1) / 2
        ∧ (vertexAt i.val).uv.2 = 1 - ((vertexAt i.val).pos.2 + 1) / 2)
    ∧ vertexAt 0 = ⟨(-1, -1), (0, 1)⟩
    ∧ vertexAt 1 = ⟨(1, -1), (1, 1)⟩
    ∧ vertexAt 2 = ⟨(-1, 1), (0, 0)⟩
    ∧ vertexAt 3 = ⟨(1, 1), (1, 0)⟩
    ∧ (RenderState.new cs fmt).topology = PrimitiveTopology.TriangleStrip
    ∧ (RenderState.new cs fmt).vertex_buffer = vertexData
    ∧ rs.render.clear_color = blackColor
    ∧ rs.render.draw_vertices = (0, 4)
    ∧ rs.render.draw_instances = (0, 1)
    ∧ rs.render.topology = rs.topology := by
  have h0 : vertexAt 0 = ⟨(-1, -1), (0, 1)⟩ := by decide
  have h1 : vertexAt 1 = ⟨(1, -1), (1, 1)⟩ := by decide
  have h2 : vertexAt 2 = ⟨(-1, 1), (0, 0)⟩ := by decide
  have h3 : vertexAt 3 = ⟨(1, 1), (1, 0)⟩ := by decide
  refine ⟨rfl, ?_, h0, h1, h2, h3, rfl, rfl, rfl, rfl, rfl, rfl⟩
  intro i
  fin_cases i <;> norm_num [h0, h1, h2, h3]

/-- C8: a close-requested event makes the loop exit with code 0
immediately: no frame event is emitted for it, and no later event in the
queue is processed (no further frame submissions). -/
theorem close_requested_exits_zero (app : App) (rest : List WinEvent) :
    App.run app (WinEvent.closeRequested :: rest) = ([], some 0)
    ∧ app.step WinEvent.closeRequested = StepResult.exit 0 :=
  ⟨rfl, rfl⟩

/-- C10: a dispatch with width < 8 records 0 workgroups along x, and one
with height < 8 records 0 along y (truncating division); in either case no
compute invocation runs and the off-screen image is unchanged. -/
theorem small_dims_dispatch_noop (img : Image) (w h w2 h2 : ℕ)
    (hw : w < 8) (hh2 : h2 < 8) :
    (dispatch_workgroups w h).1 = 0
    ∧ (dispatch_workgroups w2 h2).2.1 = 0
    ∧ dispatchCompute img w h = img
    ∧ dispatchCompute img w2 h2 = img := by
  have h1 : w / 8 = 0 := Nat.div_eq_of_lt hw
  have h2z : h2 / 8 = 0 := Nat.div_eq_of_lt hh2
  refine ⟨by simp [dispatch_workgroups, h1],
    by simp [dispatch_workgroups, h2z], ?_, ?_⟩
  · cases img with
    | mk iw ih p =>
      simp only [dispatchCompute, runComputePass, dispatch_workgroups]
      congr 1
      funext x y
      simp [h1]
  · cases img with
    | mk iw ih p =>
      simp only [dispatchCompute, runComputePass, dispatch_workgroups]
      congr 1
      funext x y
      simp [h2z]

/-- Witness for small_dims_dispatch_noop at w = 3, h = 20, w2 = 20,
h2 = 3 on the all-black 512 x 512 image. -/
theorem small_dims_dispatch_noop_witness :
    (dispatch_workgroups 3 20).1 = 0
    ∧ (dispatch_workgroups 20 3).2.1 = 0
    ∧ dispatchCompute blackImage512 3 20 = blackImage512
    ∧ dispatchCompute blackImage512 20 3 = blackImage512 :=
  small_dims_dispatch_noop blackImage512 3 20 20 3 (by decide) (by decide)

/-- C3: when frame acquisition fails during a redraw iteration, the system
calls reconfigure_surface, which leaves every field of the stored surface
configuration unchanged, then retries acquisition exactly once (the
recovery trace contains exactly one reconfigure between exactly two
acquisition attempts); if the retry also fails, the iteration is fatal
(the trace stops after the second attempt, with no further retry). -/
theorem acquire_failure_reconfigure_retry_once (app : App) (st : GpuState) :
    st.reconfigure_surface.surface_config = st.surface_config
    ∧ (app.render_frame AcquireOutcome.err AcquireOutcome.ok).2 =
        [FrameEvent.submitCompute (dispatch_workgroups WIDTH HEIGHT),
         FrameEvent.acquireAttempt, FrameEvent.reconfigure,
         FrameEvent.acquireAttempt,
         FrameEvent.submitRender app.render_state.render, FrameEvent.present]
    ∧ (app.render_frame AcquireOutcome.err AcquireOutcome.ok).1 =
        some { app with
               gpu_state := app.gpu_state.reconfigure_surface
               compute_state := { app.compute_state with
                 image := runComputePass ⟨dispatch_workgroups WIDTH HEIGHT⟩
                   app.compute_state.image } }
    ∧ (app.render_frame AcquireOutcome.err AcquireOutcome.err).2 =
        [FrameEvent.submitCompute (dispatch_workgroups WIDTH HEIGHT),
         FrameEvent.acquireAttempt, FrameEvent.reconfigure,
         FrameEvent.acquireAttempt]
    ∧ (app.render_frame AcquireOutcome.err AcquireOutcome.err).1 = none :=
  ⟨rfl, rfl, rfl, rfl, rfl⟩

/-- Helper: every render_frame trace starts with the compute submission over
(WIDTH, HEIGHT), and no later trace entry is a compute submission. -/
theorem render_frame_trace_shape (app : App) (f s : AcquireOutcome) :
    ∃ rest, (app.render_frame f s).2 =
      FrameEvent.submitCompute (dispatch_workgroups WIDTH HEIGHT) :: rest
    ∧ ∀ e ∈ rest, e.isSubmitCompute = false := by
  cases f <;> cases s
  · exact ⟨_, rfl, by intro e he; fin_cases he <;> rfl⟩
  · exact ⟨_, rfl, by intro e he; fin_cases he <;> rfl⟩
  · exact ⟨_, rfl, by intro e he; fin_cases he <;> rfl⟩
  · exact ⟨_, rfl, by intro e he; fin_cases he <;> rfl⟩

/-- Helper: getD over a list with no compute submissions, with a
non-compute default, is never a compute submission. -/
theorem getD_no_compute (l : List FrameEvent) (d : FrameEvent)
    (hd : d.isSubmitCompute = false)
    (hl : ∀ e ∈ l, e.isSubmitCompute = false) (i : ℕ) :
    (l.getD i d).isSubmitCompute = false := by
  induction l generalizing i with
  | nil => simpa [List.getD] using hd
  | cons a l ih =>
    cases i with
    | zero =>
      rw [List.getD_cons_zero]
      exact hl a (List.mem_cons_self a l)
    | succ n =>
      rw [List.getD_cons_succ]
      exact ih (fun e he => hl e (List.mem_cons_of_mem a he)) n

/-- Helper: an event-loop step that continues preserves the render state,
the compute write-target view, and the off-screen image dimensions. -/
theorem step_next_preserves (app app2 : App) (ev : WinEvent)
    (evs2 : List FrameEvent)
    (hstep : app.step ev = StepResult.next app2 evs2) :
    app2.render_state = app.render_state
    ∧ app2.compute_state.output_view = app.compute_state.output_view
    ∧ app2.compute_state.image.width = app.compute_state.image.width
    ∧ app2.compute_state.image.height = app.compute_state.image.height := by
  cases ev with
  | closeRequested =>
    simp only [App.step] at hstep
    exact StepResult.noConfusion hstep
  | resized w h =>
    simp only [App.step, App.handle_resize] at hstep
    cases hstep
    exact ⟨rfl, rfl, rfl, rfl⟩
  | aboutToWait f s =>
    cases f <;> cases s <;>
      simp only [App.step, App.render_frame] at hstep
    · cases hstep; exact ⟨rfl, rfl, rfl, rfl⟩
    · cases hstep; exact ⟨rfl, rfl, rfl, rfl⟩
    · cases hstep; exact ⟨rfl, rfl, rfl, rfl⟩
    · exact StepResult.noConfusion hstep

/-- C5: the render pipeline's sampled texture view is exactly the compute
pipeline's write-target view (RenderState.new binds
compute_state.output_view; the property holds of the constructed App and is
preserved by every continuing event-loop step: no double buffering); and
within a redraw iteration the compute submission strictly precedes any
render submission in the trace (an entry at position i that is a compute
submission and one at position j that is a render submission satisfy
i < j). -/
theorem render_samples_compute_target_and_order
    (fmt : TextureFormat) (viewId : ℕ) (init : ℕ → ℕ → Color)
    (app app2 : App) (ev : WinEvent) (evs2 : List FrameEvent)
    (f s : AcquireOutcome) (i j : ℕ)
    (hstep : app.step ev = StepResult.next app2 evs2)
    (hview : app.render_state.sampled_view = app.compute_state.output_view)
    (hc : (((app.render_frame f s).2.getD i
        FrameEvent.present).isSubmitCompute) = true)
    (hrnd : (((app.render_frame f s).2.getD j
        FrameEvent.acquireAttempt).isSubmitRender) = true) :
    (run_app fmt viewId init).render_state.sampled_view =
      (run_app fmt viewId init).compute_state.output_view
    ∧ app2.render_state.sampled_view = app2.compute_state.output_view
    ∧ i < j := by
  obtain ⟨hrs, hov, -, -⟩ := step_next_preserves app app2 ev evs2 hstep
  obtain ⟨rest, htr, hrest⟩ := render_frame_trace_shape app f s
  have hi0 : i = 0 := by
    rcases i with _ | i2
    · rfl
    · exfalso
      rw [htr, List.getD_cons_succ] at hc
      have hfalse := getD_no_compute rest FrameEvent.present rfl hrest i2
      rw [hc] at hfalse
      exact Bool.noConfusion hfalse
  have hj0 : j ≠ 0 := by
    intro hj
    subst hj
    rw [htr, List.getD_cons_zero] at hrnd
    exact Bool.noConfusion hrnd
  refine ⟨rfl, ?_, by omega⟩
  rw [hrs, hov]
  exact hview

/-- Witness for render_samples_compute_target_and_order: the constructed
test App, a resize step, and the ok/ok frame trace at positions 0 and 2. -/
theorem render_samples_compute_target_and_order_witness :
    (run_app (TextureFormat.other 0) 7
        (fun _ _ => blackColor)).render_state.sampled_view =
      (run_app (TextureFormat.other 0) 7
        (fun _ _ => blackColor)).compute_state.output_view
    ∧ ((testApp.handle_resize 3 4).1).render_state.sampled_view =
        ((testApp.handle_resize 3 4).1).compute_state.output_view
    ∧ 0 < 2 :=
  render_samples_compute_target_and_order (TextureFormat.other 0) 7
    (fun _ _ => blackColor) testApp ((testApp.handle_resize 3 4).1)
    (WinEvent.resized 3 4) [] AcquireOutcome.ok AcquireOutcome.ok 0 2
    rfl rfl rfl rfl

/-- Helper: every compute submission appearing anywhere in an event-loop
run uses the grid recorded for the compile-time constants WIDTH and
HEIGHT. -/
theorem run_submitCompute_const (evs : List WinEvent) (app : App)
    (e : FrameEvent) (he : e ∈ (App.run app evs).1)
    (hc : e.isSubmitCompute = true) :
    e = FrameEvent.submitCompute (dispatch_workgroups WIDTH HEIGHT) := by
  induction evs generalizing app with
  | nil => simp [App.run] at he
  | cons ev rest ih =>
    cases ev with
    | closeRequested => simp [App.run, App.step] at he
    | resized w h =>
      simp only [App.run, App.step, App.handle_resize] at he
      exact ih _ he
    | aboutToWait f s =>
      cases f <;> cases s <;>
        simp only [App.run, App.step, App.render_frame] at he
      · rcases List.mem_append.mp he with h1 | h2
        · fin_cases h1
          · rfl
          all_goals exact Bool.noConfusion hc
        · exact ih _ h2
      · rcases List.mem_append.mp he with h1 | h2
        · fin_cases h1
          · rfl
          all_goals exact Bool.noConfusion hc
        · exact ih _ h2
      · rcases List.mem_append.mp he with h1 | h2
        · fin_cases h1
          · rfl
          all_goals exact Bool.noConfusion hc
        · exact ih _ h2
      · fin_cases he
        · rfl
        all_goals exact Bool.noConfusion hc

/-- C9: in every redraw iteration of any run, the compute dispatch is
recorded with the compile-time constants WIDTH = HEIGHT = 512 regardless of
preceding resize events: every compute submission in the trace carries the
grid 64 x 64 x 1; continuing steps never change the off-screen image
dimensions; and a dispatch over (WIDTH, HEIGHT) on the 512 x 512 image
always rewrites exactly the pixels with x < 512 and y < 512. -/
theorem frame_dispatch_uses_constants (app app2 : App)
    (evs : List WinEvent) (e : FrameEvent) (ev : WinEvent)
    (evs2 : List FrameEvent) (img : Image)
    (he : e ∈ (App.run app evs).1)
    (hc : e.isSubmitCompute = true)
    (hstep : app.step ev = StepResult.next app2 evs2)
    (hw : img.width = 512) (hh : img.height = 512) :
    e = FrameEvent.submitCompute (64, 64, 1)
    ∧ dispatch_workgroups WIDTH HEIGHT = (64, 64, 1)
    ∧ app2.compute_state.image.width = app.compute_state.image.width
    ∧ app2.compute_state.image.height = app.compute_state.image.height
    ∧ dispatchCompute img WIDTH HEIGHT =
        { img with pixel := fun x y =>
            if x < 512 ∧ y < 512 then kernelColor x y else img.pixel x y } := by
  obtain ⟨-, -, hiw, hih⟩ := step_next_preserves app app2 ev evs2 hstep
  refine ⟨run_submitCompute_const evs app e he hc, rfl, hiw, hih, ?_⟩
  obtain ⟨w, h, p⟩ := img
  have hw2 : w = 512 := hw
  have hh2 : h = 512 := hh
  subst hw2
  subst hh2
  simp only [dispatchCompute, runComputePass, dispatch_workgroups, WIDTH, HEIGHT]
  congr 1
  funext x y
  by_cases hx : x < 512 <;> by_cases hy : y < 512 <;> simp [hx, hy]

/-- Witness for frame_dispatch_uses_constants at the test App, one ok/ok
redraw, a resize step and the all-black 512 x 512 image. -/
theorem frame_dispatch_uses_constants_witness :
    FrameEvent.submitCompute (64, 64, 1) = FrameEvent.submitCompute (64, 64, 1)
    ∧ dispatch_workgroups WIDTH HEIGHT = (64, 64, 1)
    ∧ ((testApp.handle_resize 3 4).1).compute_state.image.width =
        testApp.compute_state.image.width
    ∧ ((testApp.handle_resize 3 4).1).compute_state.image.height =
        testApp.compute_state.image.height
    ∧ dispatchCompute blackImage512 WIDTH HEIGHT =
        { blackImage512 with pixel := fun x y =>
            if x < 512 ∧ y < 512 then kernelColor x y
            else blackImage512.pixel x y } :=
  frame_dispatch_uses_constants testApp ((testApp.handle_resize 3 4).1)
    [WinEvent.aboutToWait AcquireOutcome.ok AcquireOutcome.ok]
    (FrameEvent.submitCompute (64, 64, 1)) (WinEvent.resized 3 4) []
    blackImage512 (by decide) rfl rfl rfl rfl

end GpgpuImageDrawing
